import Mathlib

/-!
# The per-object monitor of the GDC runtime (`lib/compiler/gdc/monitor.c`)

A shallow embedding of `monitor.c` and of the `Object` header of `mars.h`.

* The three preprocessor configurations of `monitor.c` are the values of `Config`:
  the `_WIN32` copy (lines 21-93), the pthread copy (lines 98-188) without
  `PTHREAD_MUTEX_ALREADY_RECURSIVE`, and the pthread copy with it.  The macro comes from
  `config.h`, which is not part of the sources, so it is a parameter.
* `Object.monitor` is declared `unsigned` (mars.h line 31) and `monitor.c` stores the result of
  `calloc` in it and casts it back to a lock pointer.  Pointers and `unsigned` are therefore
  both taken to be 32 bits wide: an address is a value of `Addr`, and `0` is the null pointer.
* `assert` is taken to be active (no `NDEBUG`): a failing assertion aborts the process.
* The lock primitives (`CRITICAL_SECTION`, `pthread_mutex_t`) are modelled by `Mutex`; every call
  of a primitive is appended to `State.trace`.
* The sequential functions `_STI_monitor_staticctor` ... `_d_monitorrelease` describe one call made
  by one thread.  The concurrent behaviour of `_d_monitorenter` is the machine `mstep`, in which
  every statement of the function is one atomic step of one thread.
-/

namespace Monitor

/-- An address: a 32-bit pointer value, the width of the `unsigned` slot that holds it. -/
abbrev Addr := Fin 4294967296

/-- A thread identifier. -/
abbrev Tid := Nat

/-- The preprocessor configuration `monitor.c` is compiled in. -/
inductive Config where
  | win32
  | pthreads
  | pthreadsAlreadyRecursive
deriving DecidableEq, Repr

/-- The kind of a lock primitive: a default (non-recursive) pthread mutex, a recursive pthread
mutex, or a Win32 critical section (always recursive). -/
inductive Kind where
  | normal
  | recursive
  | critsec
deriving DecidableEq, Repr

/-- The state of one lock primitive. `initialised` is false for zeroed or destroyed storage. -/
structure Mutex where
  initialised : Bool
  kind : Kind
  owner : Option Tid
  count : Nat
deriving DecidableEq, Repr

/-- The header of a lockable object: `struct Object` of mars.h, lines 28-32. -/
structure Object where
  vptr : Nat
  monitor : Addr
deriving DecidableEq, Repr

/-- A call of a primitive, or a write of the slot `h->monitor`. -/
inductive Event where
  | attrInit
  | attrSetRecursive
  | attrDestroy
  | guardInit
  | guardDestroy
  | guardLock (t : Tid)
  | guardUnlock (t : Tid)
  | calloc (a : Addr)
  | free (a : Addr)
  | store (a : Addr)
  | init (a : Addr)
  | destroy (a : Addr)
  | lock (t : Tid) (a : Addr)
  | unlock (t : Tid) (a : Addr)
deriving DecidableEq, Repr

/-- The globals of `monitor.c` (`inited`, `_monitor_critsec`, `_monitors_attr`), the C heap
(`mem`: the lock stored at each address, `allocated`: the blocks handed out by `calloc` and not
yet freed), the object `h` points to, and the log of primitive calls. -/
structure State where
  inited : Int
  critsec : Mutex
  attr : Option Kind
  mem : Addr → Mutex
  allocated : Addr → Bool
  h : Object
  trace : List Event

/-- How a call ends: it returns, an assertion fails (the process aborts in state `s`), the
calling thread waits in a lock acquisition (in state `s`), or a primitive is used outside its
contract (undefined behaviour). -/
inductive Outcome where
  | returns (s : State)
  | aborts (s : State)
  | blocks (s : State)
  | undefined

/-- Sequencing of calls: only a call that returns is followed by the next statement. -/
def Outcome.bind (o : Outcome) (f : State → Outcome) : Outcome :=
  match o with
  | .returns s => f s
  | .aborts s => .aborts s
  | .blocks s => .blocks s
  | .undefined => .undefined

/-- Storage as `calloc` returns it: all zero, not an initialised lock. -/
def Mutex.zeroed : Mutex := ⟨false, Kind.normal, none, 0⟩

/-- A lock right after its initialisation with kind `k`. -/
def Mutex.fresh (k : Kind) : Mutex := ⟨true, k, none, 0⟩

/-- Result of an acquisition attempt on one lock. -/
inductive Acq where
  | got (m : Mutex)
  | waits
  | undef

/-- Semantics of `EnterCriticalSection` / `pthread_mutex_lock` by thread `t`: a free lock is
taken; the owner re-enters a recursive lock or a critical section; the owner of a normal mutex,
and every other thread, waits; an uninitialised lock is outside the contract. -/
def Mutex.acquire (m : Mutex) (t : Tid) : Acq :=
  if m.initialised then
    match m.owner with
    | none => Acq.got { m with owner := some t, count := 1 }
    | some o =>
      if o = t ∧ m.kind ≠ Kind.normal then Acq.got { m with count := m.count + 1 }
      else Acq.waits
  else Acq.undef

/-- Semantics of `LeaveCriticalSection` / `pthread_mutex_unlock` by thread `t`: the owner gives
up one level of ownership; a recursive pthread mutex refuses any other thread with `EPERM` (the
return value is ignored by `monitor.c`) and stays as it is; everything else is outside the
contract (`none`). -/
def Mutex.release (m : Mutex) (t : Tid) : Option Mutex :=
  if m.initialised then
    if m.owner = some t then
      some (if m.count ≤ 1 then { m with owner := none, count := 0 }
            else { m with count := m.count - 1 })
    else if m.kind = Kind.recursive then some m
    else none
  else none

/-- Append an event to the log. -/
def State.log (s : State) (e : Event) : State := { s with trace := s.trace ++ [e] }

/-- Kind of a lock initialised with default attributes in configuration `c`. -/
def defaultKind : Config → Kind
  | .win32 => Kind.critsec
  | .pthreads => Kind.normal
  | .pthreadsAlreadyRecursive => Kind.recursive

/-- The call `pthread_mutexattr_init(&_monitors_attr)`. -/
def attrInit (s : State) : State := { s with attr := some Kind.normal }.log Event.attrInit

/-- The call `pthread_mutexattr_settype(&_monitors_attr, PTHREAD_MUTEX_RECURSIVE)`. -/
def attrSetRecursive (s : State) : State :=
  { s with attr := s.attr.map fun _ => Kind.recursive }.log Event.attrSetRecursive

/-- The call `pthread_mutexattr_destroy(&_monitors_attr)`. -/
def attrDestroy (s : State) : State := { s with attr := none }.log Event.attrDestroy

/-- The call `InitializeCriticalSection(&_monitor_critsec)` /
`pthread_mutex_init(&_monitor_critsec, 0)`. -/
def guardInit (c : Config) (s : State) : State :=
  { s with critsec := Mutex.fresh (defaultKind c) }.log Event.guardInit

/-- The call `DeleteCriticalSection(&_monitor_critsec)` /
`pthread_mutex_destroy(&_monitor_critsec)`. -/
def guardDestroy (s : State) : State :=
  { s with critsec := { s.critsec with initialised := false } }.log Event.guardDestroy

/-- Acquisition of the guard `_monitor_critsec` by thread `t`. -/
def guardLock (t : Tid) (s : State) : Outcome :=
  match s.critsec.acquire t with
  | .got m => .returns ({ s with critsec := m }.log (Event.guardLock t))
  | .waits => .blocks s
  | .undef => .undefined

/-- Release of the guard `_monitor_critsec` by thread `t`. -/
def guardUnlock (t : Tid) (s : State) : Outcome :=
  match s.critsec.release t with
  | some m => .returns ({ s with critsec := m }.log (Event.guardUnlock t))
  | none => .undefined

/-- The call `calloc(sizeof(lock), 1)` returning `a`: a null result changes nothing; otherwise
the block at `a` is handed out, zero-filled. -/
def calloc (a : Addr) (s : State) : State :=
  if a = 0 then s.log (Event.calloc a)
  else { s with mem := Function.update s.mem a Mutex.zeroed,
                allocated := Function.update s.allocated a true }.log (Event.calloc a)

/-- The call `free(a)`. -/
def free (a : Addr) (s : State) : State :=
  { s with allocated := Function.update s.allocated a false }.log (Event.free a)

/-- The assignment `h->monitor = v`. -/
def setMonitor (v : Addr) (s : State) : State :=
  { s with h := { s.h with monitor := v } }.log (Event.store v)

/-- Initialisation of the lock at `a`: `InitializeCriticalSection(cs)` (line 58),
`pthread_mutex_init(cs, &_monitors_attr)` (line 149) or `pthread_mutex_init(cs, NULL)`
(line 151).  With `_monitors_attr` not initialised line 149 is outside the contract. -/
def mutexInit (c : Config) (a : Addr) (s : State) : Outcome :=
  match c with
  | .win32 =>
    .returns ({ s with mem := Function.update s.mem a (Mutex.fresh Kind.critsec) }.log (Event.init a))
  | .pthreads =>
    match s.attr with
    | some k => .returns ({ s with mem := Function.update s.mem a (Mutex.fresh k) }.log (Event.init a))
    | none => .undefined
  | .pthreadsAlreadyRecursive =>
    .returns ({ s with mem := Function.update s.mem a (Mutex.fresh Kind.recursive) }.log (Event.init a))

/-- The call of `DeleteCriticalSection` / `pthread_mutex_destroy` on the lock at `a`: the
storage no longer holds an initialised lock. -/
def mutexDestroy (a : Addr) (s : State) : State :=
  { s with mem := Function.update s.mem a { s.mem a with initialised := false } }.log
    (Event.destroy a)

/-- The call of `EnterCriticalSection` / `pthread_mutex_lock` on the lock at `a` by thread `t`. -/
def mutexLock (t : Tid) (a : Addr) (s : State) : Outcome :=
  match (s.mem a).acquire t with
  | .got m => .returns ({ s with mem := Function.update s.mem a m }.log (Event.lock t a))
  | .waits => .blocks s
  | .undef => .undefined

/-- The call of `LeaveCriticalSection` / `pthread_mutex_unlock` on the lock at `a` by thread
`t`. -/
def mutexUnlock (t : Tid) (a : Addr) (s : State) : Outcome :=
  match (s.mem a).release t with
  | some m => .returns ({ s with mem := Function.update s.mem a m }.log (Event.unlock t a))
  | none => .undefined

/-- Function `_STI_monitor_staticctor`, lines 30-36 and 112-123. -/
def _STI_monitor_staticctor (c : Config) (s : State) : State :=
  if s.inited = 0 then
    match c with
    | .win32 => { guardInit c s with inited := 1 }
    | .pthreads => { guardInit c (attrSetRecursive (attrInit s)) with inited := 1 }
    | .pthreadsAlreadyRecursive => { guardInit c s with inited := 1 }
  else s

/-- Function `_STD_monitor_staticdtor`, lines 38-44 and 125-134. -/
def _STD_monitor_staticdtor (c : Config) (s : State) : State :=
  if s.inited ≠ 0 then
    match c with
    | .win32 => guardDestroy { s with inited := 0 }
    | .pthreads => attrDestroy (guardDestroy { s with inited := 0 })
    | .pthreadsAlreadyRecursive => { s with inited := 0 }
  else s

/-- Lines 155-160 (61-66) of `_d_monitorenter`, with the local variable `cs` as it is when the
guarded block is left: release the guard, free `cs` if it was not used, lock `h->monitor`. -/
def enterTail (t : Tid) (cs : Addr) (s : State) : Outcome :=
  (guardUnlock t s).bind fun s1 =>
    let s2 := if cs ≠ 0 then free cs s1 else s1
    mutexLock t s2.h.monitor s2

/-- Function `_d_monitorenter(h)` called by thread `t`, lines 46-68 and 136-162; `a` is what
`calloc` returns if it is called. -/
def _d_monitorenter (c : Config) (t : Tid) (a : Addr) (s : State) : Outcome :=
  if s.h.monitor = 0 then
    let s1 := calloc a s
    if a = 0 then .aborts s1
    else
      (guardLock t s1).bind fun s2 =>
        if s2.h.monitor = 0 then
          (mutexInit c a (setMonitor a s2)).bind fun s3 => enterTail t 0 s3
        else enterTail t a s2
  else mutexLock t s.h.monitor s

/-- Function `_d_monitorexit(h)` called by thread `t`, lines 70-75 and 164-170. -/
def _d_monitorexit (t : Tid) (s : State) : Outcome :=
  if s.h.monitor = 0 then .aborts s
  else mutexUnlock t s.h.monitor s

/-- Function `_d_monitorrelease(h)`, lines 81-91 and 176-186. -/
def _d_monitorrelease (s : State) : State :=
  if s.h.monitor ≠ 0 then
    setMonitor 0 (free s.h.monitor (mutexDestroy s.h.monitor s))
  else s

/-- The guard lock has been set up (as `_STI_monitor_staticctor` does) and nobody holds it; in the
pthread configuration `_monitors_attr` has been given the recursive type. -/
def Ready (c : Config) (s : State) : Prop :=
  s.critsec.initialised = true ∧ s.critsec.owner = none ∧
    (c = Config.pthreads → s.attr = some Kind.recursive)

/-- Kind of the per-object lock `_d_monitorenter` creates once the runtime is set up. -/
def monitorKind : Config → Kind
  | .win32 => Kind.critsec
  | .pthreads => Kind.recursive
  | .pthreadsAlreadyRecursive => Kind.recursive

/-- A state with everything zero, as when the process starts; `h` is a new object. -/
def State.zero : State :=
  { inited := 0, critsec := Mutex.zeroed, attr := none, mem := fun _ => Mutex.zeroed,
    allocated := fun _ => false, h := ⟨0, 0⟩, trace := [] }

/-! ## The concurrent machine for `_d_monitorenter`

Every thread `t < n` executes one call of `_d_monitorenter(h)` on the same object. A program
counter names the statement the thread executes next, by its line in the pthread copy of
`monitor.c` (the `_WIN32` copy has the same statements at lines 49-66). -/

/-- Program counter of a thread inside `_d_monitorenter`. -/
inductive PC where
  /-- Line 139 (49), `if (!h->monitor)` -/
  | L139
  /-- Line 142 (52), `cs = calloc(...)` -/
  | L142
  /-- Line 143 (53), `assert(cs)` -/
  | L143
  /-- Line 144 (54), lock of `_monitor_critsec` -/
  | L144
  /-- Line 145 (55), `if (!h->monitor)` under the guard -/
  | L145
  /-- Line 147 (57), `h->monitor = (void *)cs` -/
  | L147
  /-- Lines 149/151 (58), initialisation of the lock at `cs` -/
  | L149
  /-- Line 153 (59), `cs = NULL` -/
  | L153
  /-- Line 155 (61), unlock of `_monitor_critsec` -/
  | L155
  /-- Line 156 (62), `if (cs)` -/
  | L156
  /-- Line 157 (63), `free(cs)` -/
  | L157
  /-- Line 160 (66), lock of `h->monitor` -/
  | L160
  /-- The call has returned -/
  | done
deriving DecidableEq, Repr

/-- The locals of one thread: its program counter and the variable `cs`. -/
structure Local where
  pc : PC
  cs : Addr
deriving DecidableEq, Repr

/-- State of the machine: the number of threads, the shared state, the locals of every thread,
whether the process has aborted, and whether a primitive has been used outside its contract. -/
structure MState where
  n : Nat
  st : State
  thr : Tid → Local
  aborted : Bool
  fault : Bool

/-- All `n` threads are about to call `_d_monitorenter` in shared state `s`. -/
def MState.start (n : Nat) (s : State) : MState :=
  { n := n, st := s, thr := fun _ => ⟨PC.L139, 0⟩, aborted := false, fault := false }

/-- Thread `t` moves to `pc`, the shared state becomes `s`. -/
def MState.goto (m : MState) (t : Tid) (pc : PC) (s : State) : MState :=
  { m with st := s, thr := Function.update m.thr t { m.thr t with pc := pc } }

/-- Thread `t` has called a primitive with outcome `o`: when the call returns the thread moves
to `pc`; when the call is outside the contract of the primitive this is recorded in `fault` and
the thread goes on with the shared state as it was; a waiting thread has no step. -/
def MState.after (m : MState) (t : Tid) (pc : PC) (o : Outcome) : Option MState :=
  match o with
  | .returns s => some (m.goto t pc s)
  | .undefined => some { m.goto t pc m.st with fault := true }
  | .blocks _ => none
  | .aborts _ => none

/-- One atomic step of thread `t`: the statement at its program counter. `a` is the address
`calloc` returns if the statement is the `calloc` of line 142; `calloc` never returns a block
that is allocated. No thread has a step after an abort. -/
def mstep (c : Config) (m : MState) (t : Tid) (a : Addr) : Option MState :=
  if m.aborted = true ∨ ¬ t < m.n then none
  else
    match (m.thr t).pc with
    | .L139 => some (m.goto t (if m.st.h.monitor = 0 then PC.L142 else PC.L160) m.st)
    | .L142 =>
      if a ≠ 0 ∧ m.st.allocated a = true then none
      else some { m with st := calloc a m.st, thr := Function.update m.thr t ⟨PC.L143, a⟩ }
    | .L143 =>
      if (m.thr t).cs = 0 then some { m with aborted := true }
      else some (m.goto t PC.L144 m.st)
    | .L144 => m.after t PC.L145 (guardLock t m.st)
    | .L145 => some (m.goto t (if m.st.h.monitor = 0 then PC.L147 else PC.L155) m.st)
    | .L147 => some (m.goto t PC.L149 (setMonitor (m.thr t).cs m.st))
    | .L149 => m.after t PC.L153 (mutexInit c (m.thr t).cs m.st)
    | .L153 => some { m with thr := Function.update m.thr t ⟨PC.L155, 0⟩ }
    | .L155 => m.after t PC.L156 (guardUnlock t m.st)
    | .L156 => some (m.goto t (if (m.thr t).cs ≠ 0 then PC.L157 else PC.L160) m.st)
    | .L157 => some (m.goto t PC.L160 (free (m.thr t).cs m.st))
    | .L160 => m.after t PC.done (mutexLock t m.st.h.monitor m.st)
    | .done => none

/-- An interleaving: the steps of a schedule, one after the other; `none` when the schedule
asks for a step that does not exist. -/
def mrun (c : Config) (m : MState) : List (Tid × Addr) → Option MState
  | [] => some m
  | (t, a) :: rest => (mstep c m t a).bind fun m1 => mrun c m1 rest

/-- The call ended in a failed assertion. -/
def Outcome.isAbort : Outcome → Bool
  | .aborts _ => true
  | _ => false

/-- An object whose slot names the lock at address 8: a recursive lock that nobody holds. -/
def exampleUnheld : State :=
  { State.zero with
    inited := 1, critsec := Mutex.fresh Kind.normal, attr := some Kind.recursive,
    mem := Function.update (fun _ => Mutex.zeroed) 8 (Mutex.fresh Kind.recursive),
    allocated := Function.update (fun _ => false) 8 true,
    h := ⟨0, 8⟩ }

/-- The same object with its lock held once by thread 1. -/
def exampleHeldByOther : State :=
  { exampleUnheld with
    mem := Function.update (fun _ => Mutex.zeroed) 8 ⟨true, Kind.recursive, some 1, 1⟩ }

/-- The state the process is in after `_STI_monitor_staticctor` (pthread configuration), with a
new object. -/
def raceStart : State := _STI_monitor_staticctor Config.pthreads State.zero

theorem ready_staticctor (c : Config) (s : State) (h : s.inited = 0) :
    Ready c (_STI_monitor_staticctor c s) := by
  cases c <;>
    simp [Ready, _STI_monitor_staticctor, h, guardInit, State.log, Mutex.fresh, attrSetRecursive,
      attrInit]

theorem enter_slow (c : Config) (t : Tid) (a : Addr) (s : State) (hr : Ready c s)
    (h0 : s.h.monitor = 0) (ha : a ≠ 0) :
    _d_monitorenter c t a s = Outcome.returns
      { s with
        critsec := { s.critsec with owner := none, count := 0 }
        mem := Function.update s.mem a ⟨true, monitorKind c, some t, 1⟩
        allocated := Function.update s.allocated a true
        h := { s.h with monitor := a }
        trace := s.trace ++ [Event.calloc a, Event.guardLock t, Event.store a, Event.init a,
          Event.guardUnlock t, Event.lock t a] } := by
  obtain ⟨hi, ho, hattr⟩ := hr
  cases c <;>
    simp_all [_d_monitorenter, calloc, guardLock, Mutex.acquire, State.log, Outcome.bind,
      setMonitor, mutexInit, enterTail, guardUnlock, Mutex.release, mutexLock, Mutex.fresh,
      monitorKind]

theorem enter_fast (c : Config) (t : Tid) (a : Addr) (s : State) (h : s.h.monitor ≠ 0) :
    _d_monitorenter c t a s = mutexLock t s.h.monitor s := by
  simp [_d_monitorenter, h]

theorem mutexLock_ne_aborts (t : Tid) (a : Addr) (s x : State) :
    mutexLock t a s ≠ Outcome.aborts x := by
  unfold mutexLock
  split <;> simp

theorem mutexUnlock_ne_aborts (t : Tid) (a : Addr) (s x : State) :
    mutexUnlock t a s ≠ Outcome.aborts x := by
  unfold mutexUnlock
  split <;> simp

/-- C2. Enter postcondition for a single thread: with the guard set up and free, an empty slot
and a non-null `calloc` result `a`, `_d_monitorenter` returns; afterwards the slot is non-null
and reads back `a`, the lock at `a` is initialised and held once by the caller, the only lock
the call acquired is the one at `a`, and the guard is not held. -/
theorem C2_enter_postcondition (c : Config) (t : Tid) (a : Addr) (s : State) (hr : Ready c s)
    (h0 : s.h.monitor = 0) (ha : a ≠ 0) :
    ∃ s1, _d_monitorenter c t a s = Outcome.returns s1 ∧
      s1.h.monitor ≠ 0 ∧ s1.h.monitor = a ∧ s1.h.vptr = s.h.vptr ∧
      (s1.mem a).initialised = true ∧ (s1.mem a).owner = some t ∧ (s1.mem a).count = 1 ∧
      s1.critsec.initialised = true ∧ s1.critsec.owner = none ∧
      s1.trace = s.trace ++ [Event.calloc a, Event.guardLock t, Event.store a, Event.init a,
        Event.guardUnlock t, Event.lock t a] := by
  refine ⟨_, enter_slow c t a s hr h0 ha, ?_⟩
  simp [ha, hr.1]

/-- C5. Release effect: when the slot is non-null, `_d_monitorrelease` destroys the lock the slot
names, frees its storage exactly once and leaves the slot null; `vptr`, the guard and the other
globals are unchanged. -/
theorem C5_release_effect (s : State) (h : s.h.monitor ≠ 0) :
    (_d_monitorrelease s).h.monitor = 0 ∧
      (_d_monitorrelease s).h.vptr = s.h.vptr ∧
      (_d_monitorrelease s).critsec = s.critsec ∧
      (_d_monitorrelease s).inited = s.inited ∧
      (_d_monitorrelease s).attr = s.attr ∧
      ((_d_monitorrelease s).mem s.h.monitor).initialised = false ∧
      (_d_monitorrelease s).allocated s.h.monitor = false ∧
      (_d_monitorrelease s).trace =
        s.trace ++ [Event.destroy s.h.monitor, Event.free s.h.monitor, Event.store 0] ∧
      (_d_monitorrelease s).trace.count (Event.free s.h.monitor) =
        s.trace.count (Event.free s.h.monitor) + 1 ∧
      (_d_monitorrelease s).trace.count (Event.destroy s.h.monitor) =
        s.trace.count (Event.destroy s.h.monitor) + 1 := by
  simp [_d_monitorrelease, h, setMonitor, free, mutexDestroy, State.log, List.count_cons]

theorem release_ready (c : Config) (s : State) (hr : Ready c s) : Ready c (_d_monitorrelease s) := by
  unfold _d_monitorrelease
  split
  · simpa [Ready, setMonitor, free, mutexDestroy, State.log] using hr
  · exact hr

/-- C6. Re-allocation after release: on a populated slot, `_d_monitorrelease` followed by
`_d_monitorenter` goes through the allocating path again (`calloc` is called after the release)
and leaves the slot non-null, holding the address `a` that this `calloc` returned, whatever the
released address was; `a` may be the released address itself. -/
theorem C6_realloc_after_release (c : Config) (t : Tid) (a : Addr) (s : State) (hr : Ready c s)
    (h : s.h.monitor ≠ 0) (ha : a ≠ 0) :
    ∃ s1, _d_monitorenter c t a (_d_monitorrelease s) = Outcome.returns s1 ∧
      s1.h.monitor ≠ 0 ∧ s1.h.monitor = a ∧
      s1.mem a = ⟨true, monitorKind c, some t, 1⟩ ∧ s1.allocated a = true ∧
      s1.trace = s.trace ++ [Event.destroy s.h.monitor, Event.free s.h.monitor, Event.store 0,
        Event.calloc a, Event.guardLock t, Event.store a, Event.init a, Event.guardUnlock t,
        Event.lock t a] := by
  have h0 : (_d_monitorrelease s).h.monitor = 0 := by
    simp [_d_monitorrelease, h, setMonitor, State.log]
  have htr : (_d_monitorrelease s).trace =
      s.trace ++ [Event.destroy s.h.monitor, Event.free s.h.monitor, Event.store 0] := by
    simp [_d_monitorrelease, h, setMonitor, free, mutexDestroy, State.log]
  refine ⟨_, enter_slow c t a _ (release_ready c s hr) h0 ha, ?_⟩
  simp [ha, htr]

/-- C7. Resource exhaustion: with an empty slot and `calloc` returning null, `_d_monitorenter`
aborts in the state it was called in (only the failed `calloc` is logged: the guard is not
acquired, the slot is not written, no lock is taken); with a populated slot it is just the lock
acquisition on the slot, which never aborts and performs no allocation. -/
theorem C7_exhaustion_fatal (c : Config) (t : Tid) (s : State) :
    (s.h.monitor = 0 →
      _d_monitorenter c t 0 s = Outcome.aborts (s.log (Event.calloc 0)) ∧
      (s.log (Event.calloc 0)).h = s.h ∧ (s.log (Event.calloc 0)).critsec = s.critsec ∧
      (s.log (Event.calloc 0)).mem = s.mem ∧ (s.log (Event.calloc 0)).allocated = s.allocated ∧
      (s.log (Event.calloc 0)).trace = s.trace ++ [Event.calloc 0]) ∧
    (s.h.monitor ≠ 0 → ∀ a,
      _d_monitorenter c t a s = mutexLock t s.h.monitor s ∧
      (∀ x, _d_monitorenter c t a s ≠ Outcome.aborts x) ∧
      (∀ x, _d_monitorenter c t a s = Outcome.returns x →
        x.allocated = s.allocated ∧ x.trace = s.trace ++ [Event.lock t s.h.monitor]) ∧
      (∀ x, _d_monitorenter c t a s = Outcome.blocks x → x = s)) := by
  constructor
  · intro h0
    simp [_d_monitorenter, h0, calloc, State.log]
  · intro h a
    rw [enter_fast c t a s h]
    refine ⟨rfl, fun x => mutexLock_ne_aborts _ _ _ _, ?_, ?_⟩
    · intro x
      unfold mutexLock
      split <;> simp [State.log]
      rintro rfl
      simp
    · intro x
      unfold mutexLock
      split <;> simp [State.log]
      rintro rfl
      rfl

/-- C8. Guard lifecycle: from every state, two calls of `_STI_monitor_staticctor` give the state
one call gives, and the flag is set; when the flag was clear the guard was constructed exactly
once by the two calls. `_STD_monitor_staticdtor` with the flag clear changes nothing at all
(so nothing is destroyed), in particular right after a teardown. -/
theorem C8_guard_lifecycle (c : Config) (s : State) :
    _STI_monitor_staticctor c (_STI_monitor_staticctor c s) = _STI_monitor_staticctor c s ∧
    (_STI_monitor_staticctor c s).inited ≠ 0 ∧
    (s.inited = 0 →
      (_STI_monitor_staticctor c (_STI_monitor_staticctor c s)).trace.count Event.guardInit =
        s.trace.count Event.guardInit + 1) ∧
    (s.inited = 0 → _STD_monitor_staticdtor c s = s) ∧
    _STD_monitor_staticdtor c (_STD_monitor_staticdtor c s) = _STD_monitor_staticdtor c s := by
  refine ⟨?_, ?_, ?_, ?_, ?_⟩
  · by_cases h : s.inited = 0
    · cases c <;> simp [_STI_monitor_staticctor, h, guardInit, State.log]
    · simp [_STI_monitor_staticctor, h]
  · by_cases h : s.inited = 0
    · cases c <;> simp [_STI_monitor_staticctor, h, guardInit, State.log]
    · simp [_STI_monitor_staticctor, h]
  · intro h
    cases c <;>
      simp [_STI_monitor_staticctor, h, guardInit, State.log, attrSetRecursive, attrInit,
        List.count_cons]
  · intro h
    simp [_STD_monitor_staticdtor, h]
  · by_cases h : s.inited = 0
    · simp [_STD_monitor_staticdtor, h]
    · cases c <;>
        simp [_STD_monitor_staticdtor, h, guardDestroy, attrDestroy, State.log]

/-- C4, as stated, fails: thread 0 does not hold the lock of the object (nobody holds it, or
thread 1 holds it), the slot is populated, and `_d_monitorexit` returns instead of aborting. -/
theorem C4_counterexample :
    (exampleUnheld.mem exampleUnheld.h.monitor).owner ≠ some 0 ∧
    (_d_monitorexit 0 exampleUnheld).isAbort = false ∧
    (∃ x, _d_monitorexit 0 exampleUnheld = Outcome.returns x) ∧
    (exampleHeldByOther.mem exampleHeldByOther.h.monitor).owner ≠ some 0 ∧
    (_d_monitorexit 0 exampleHeldByOther).isAbort = false ∧
    (∃ x, _d_monitorexit 0 exampleHeldByOther = Outcome.returns x) := by
  refine ⟨by decide, by decide, ⟨_, rfl⟩, by decide, by decide, ⟨_, rfl⟩⟩

/-- C4, amended. `_d_monitorexit` asserts that the slot is populated and nothing else: with an
empty slot it aborts in the state it was called in (nothing is released); with a populated slot
the assertion passes whoever holds the lock, and the call is the unlock primitive applied to
the lock the slot names. -/
theorem C4_exit_checks_slot_only (t : Tid) (s : State) :
    (s.h.monitor = 0 → _d_monitorexit t s = Outcome.aborts s) ∧
    (s.h.monitor ≠ 0 →
      _d_monitorexit t s = mutexUnlock t s.h.monitor s ∧
      (_d_monitorexit t s).isAbort = false) := by
  constructor
  · intro h
    simp [_d_monitorexit, h]
  · intro h
    have e : _d_monitorexit t s = mutexUnlock t s.h.monitor s := by simp [_d_monitorexit, h]
    refine ⟨e, ?_⟩
    rw [e]
    unfold mutexUnlock
    split <;> rfl

set_option maxHeartbeats 2000000 in
/-- The machine agrees with the sequential function: a thread that runs alone through the
allocating path of `_d_monitorenter` ends in the state `_d_monitorenter` returns. -/
theorem solo_enter_slow (c : Config) (n : Nat) (t : Tid) (a : Addr) (s : State)
    (hr : Ready c s) (h0 : s.h.monitor = 0) (ha : a ≠ 0) (hal : s.allocated a = false)
    (ht : t < n) :
    ∃ m1, mrun c (MState.start n s) ((t, 0) :: (t, a) :: List.replicate 9 (t, 0)) = some m1 ∧
      (m1.thr t).pc = PC.done ∧ m1.fault = false ∧
      _d_monitorenter c t a s = Outcome.returns m1.st := by
  rw [enter_slow c t a s hr h0 ha]
  obtain ⟨hi, ho, hattr⟩ := hr
  have hnt : ¬ n ≤ t := Nat.not_le.mpr ht
  cases c
  · simp [List.replicate, mrun, mstep, MState.start, hnt, h0, ha, hal, MState.goto,
      MState.after, calloc, guardLock, Mutex.acquire, hi, ho, setMonitor, State.log, mutexInit,
      guardUnlock, Mutex.release, mutexLock, Mutex.fresh, monitorKind]
  · have hat := hattr rfl
    simp [List.replicate, mrun, mstep, MState.start, hnt, h0, ha, hal, MState.goto,
      MState.after, calloc, guardLock, Mutex.acquire, hi, ho, setMonitor, State.log, mutexInit,
      guardUnlock, Mutex.release, mutexLock, Mutex.fresh, monitorKind, hat]
  · simp [List.replicate, mrun, mstep, MState.start, hnt, h0, ha, hal, MState.goto,
      MState.after, calloc, guardLock, Mutex.acquire, hi, ho, setMonitor, State.log, mutexInit,
      guardUnlock, Mutex.release, mutexLock, Mutex.fresh, monitorKind]

/-- The machine agrees with the sequential function on the path that finds the slot populated:
the thread has its two steps exactly when `_d_monitorenter` returns, and ends in that state. -/
theorem solo_enter_fast (c : Config) (n : Nat) (t : Tid) (a : Addr) (s s1 : State)
    (h0 : s.h.monitor ≠ 0) (ht : t < n) (he : _d_monitorenter c t a s = Outcome.returns s1) :
    ∃ m1, mrun c (MState.start n s) [(t, 0), (t, 0)] = some m1 ∧ (m1.thr t).pc = PC.done ∧
      m1.st = s1 := by
  rw [enter_fast c t a s h0] at he
  have hnt : ¬ n ≤ t := Nat.not_le.mpr ht
  simp [mrun, mstep, MState.start, hnt, h0, MState.goto, MState.after, he]

/-- C10 fails on the code. Thread 0 runs alone up to and including the write of line 147: the
slot is non-null (12) and the lock it names is not initialised. Thread 1 then finds the slot
non-null at line 139 and calls the lock primitive of line 160 on that uninitialised lock. -/
theorem C10_slot_published_before_init :
    (mrun Config.pthreads (MState.start 2 raceStart)
        [(0, 0), (0, 12), (0, 0), (0, 0), (0, 0), (0, 0)]).map
      (fun m => ((m.thr 0).pc, m.st.h.monitor, (m.st.mem m.st.h.monitor).initialised, m.fault)) =
      some (PC.L149, 12, false, false) ∧
    (mrun Config.pthreads (MState.start 2 raceStart)
        [(0, 0), (0, 12), (0, 0), (0, 0), (0, 0), (0, 0), (1, 0)]).map
      (fun m => ((m.thr 1).pc, m.st.h.monitor, (m.st.mem m.st.h.monitor).initialised,
        mutexLock 1 m.st.h.monitor m.st matches Outcome.undefined)) =
      some (PC.L160, 12, false, true) ∧
    (mrun Config.pthreads (MState.start 2 raceStart)
        [(0, 0), (0, 12), (0, 0), (0, 0), (0, 0), (0, 0), (1, 0), (1, 0)]).map
      (fun m => ((m.thr 0).pc, (m.thr 1).pc, m.fault)) = some (PC.L149, PC.done, true) := by
  refine ⟨by decide, by decide, by decide⟩

/-! ## Instances of the sequential theorems -/

/-- C2 at thread 0, `calloc` returning 12, right after `_STI_monitor_staticctor`. -/
theorem C2_enter_postcondition_witness :
    Ready Config.pthreads raceStart ∧ raceStart.h.monitor = 0 ∧
    ∃ s1, _d_monitorenter Config.pthreads 0 12 raceStart = Outcome.returns s1 ∧
      s1.h.monitor = 12 ∧ (s1.mem 12).initialised = true ∧ (s1.mem 12).owner = some 0 ∧
      (s1.mem 12).count = 1 ∧ s1.critsec.owner = none := by
  have hr := ready_staticctor Config.pthreads State.zero rfl
  obtain ⟨s1, e, _, e2, _, e4, e5, e6, _, e8, _⟩ :=
    C2_enter_postcondition Config.pthreads 0 12 raceStart hr (by decide) (by decide)
  exact ⟨hr, by decide, s1, e, e2, e4, e5, e6, e8⟩

/-- C4 (amended) on a new object and on an object whose lock nobody holds. -/
theorem C4_exit_checks_slot_only_witness :
    State.zero.h.monitor = 0 ∧ _d_monitorexit 0 State.zero = Outcome.aborts State.zero ∧
    exampleUnheld.h.monitor ≠ 0 ∧
    _d_monitorexit 0 exampleUnheld = mutexUnlock 0 exampleUnheld.h.monitor exampleUnheld :=
  ⟨by decide, (C4_exit_checks_slot_only 0 State.zero).1 (by decide), by decide,
    ((C4_exit_checks_slot_only 0 exampleUnheld).2 (by decide)).1⟩

/-- C5 on the object whose slot names the lock at address 8. -/
theorem C5_release_effect_witness :
    exampleUnheld.h.monitor ≠ 0 ∧ (_d_monitorrelease exampleUnheld).h.monitor = 0 ∧
    (_d_monitorrelease exampleUnheld).trace = [Event.destroy 8, Event.free 8, Event.store 0] := by
  have h := C5_release_effect exampleUnheld (by decide)
  exact ⟨by decide, h.1, h.2.2.2.2.2.2.2.1⟩

/-- C6 with `calloc` returning the address that was just released. -/
theorem C6_realloc_after_release_witness :
    Ready Config.pthreads exampleUnheld ∧ exampleUnheld.h.monitor = 8 ∧
    ∃ s1, _d_monitorenter Config.pthreads 0 8 (_d_monitorrelease exampleUnheld) =
        Outcome.returns s1 ∧ s1.h.monitor = 8 ∧ s1.allocated 8 = true := by
  have hr : Ready Config.pthreads exampleUnheld := ⟨by decide, by decide, fun _ => by decide⟩
  obtain ⟨s1, e, _, e2, _, e4, _⟩ :=
    C6_realloc_after_release Config.pthreads 0 8 exampleUnheld hr (by decide) (by decide)
  exact ⟨hr, by decide, s1, e, e2, e4⟩

/-- C7 on a new object, and on an object with a populated slot. -/
theorem C7_exhaustion_fatal_witness :
    State.zero.h.monitor = 0 ∧
    _d_monitorenter Config.pthreads 0 0 State.zero =
      Outcome.aborts (State.zero.log (Event.calloc 0)) ∧
    exampleUnheld.h.monitor ≠ 0 ∧
    _d_monitorenter Config.pthreads 0 0 exampleUnheld =
      mutexLock 0 exampleUnheld.h.monitor exampleUnheld :=
  ⟨by decide, ((C7_exhaustion_fatal Config.pthreads 0 State.zero).1 (by decide)).1, by decide,
    ((C7_exhaustion_fatal Config.pthreads 0 exampleUnheld).2 (by decide) 0).1⟩

/-- C8 from the state the process starts in. -/
theorem C8_guard_lifecycle_witness :
    State.zero.inited = 0 ∧
    _STI_monitor_staticctor Config.pthreads (_STI_monitor_staticctor Config.pthreads State.zero) =
      _STI_monitor_staticctor Config.pthreads State.zero ∧
    (_STI_monitor_staticctor Config.pthreads
      (_STI_monitor_staticctor Config.pthreads State.zero)).trace.count Event.guardInit = 1 ∧
    _STD_monitor_staticdtor Config.pthreads State.zero = State.zero := by
  have h := C8_guard_lifecycle Config.pthreads State.zero
  exact ⟨rfl, h.1, h.2.2.1 rfl, h.2.2.2.1 rfl⟩

end Monitor
